import Mathlib

/-!
Verification of `convert.py`: a one-pass converter from a JSON array of
question records to a CSV file for bulk database import.

The embedding models Python values decoded from JSON as the inductive
type `JVal`, and translates each function and the driver loop of
`convert.py` into Lean. Fallible Python operations (attribute errors,
iteration over non-iterables) are embedded as `Except String`.
-/

/-- A value decoded from JSON, as Python's `json.load` produces it
(JSON numbers restricted to integers, which is all the data model uses). -/
inductive JVal where
  | null : JVal
  | bool : Bool → JVal
  | num : Int → JVal
  | str : String → JVal
  | arr : List JVal → JVal
  | obj : List (String × JVal) → JVal
  deriving Repr, BEq

/-- Python truthiness (`if not py_list:` in the source): `None`, `False`,
`0`, `""`, `[]` and `{}` are falsy; everything else is truthy. -/
def pyTruthy : JVal → Bool
  | .null => false
  | .bool b => b
  | .num n => n != 0
  | .str s => s != ""
  | .arr xs => !xs.isEmpty
  | .obj kvs => !kvs.isEmpty

mutual
/-- Python `repr()` restricted to JSON-decoded values. Strings are shown
between single quotes; Python's quote-selection and intra-string escaping
corners are not modelled, as no record field exercised by the program puts
a container through `str()`. -/
def pyRepr : JVal → String
  | .null => "None"
  | .bool true => "True"
  | .bool false => "False"
  | .num n => toString n
  | .str s => "'" ++ s ++ "'"
  | .arr xs => "[" ++ String.intercalate ", " (pyReprList xs) ++ "]"
  | .obj kvs => "\x7b" ++ String.intercalate ", " (pyReprObj kvs) ++ "\x7d"

def pyReprList : List JVal → List String
  | [] => []
  | x :: xs => pyRepr x :: pyReprList xs

def pyReprObj : List (String × JVal) → List String
  | [] => []
  | (k, v) :: kvs => ("'" ++ k ++ "': " ++ pyRepr v) :: pyReprObj kvs
end

/-- Python `str()` on JSON-decoded values (`str(item)` in the source). -/
def pyStr : JVal → String
  | .str s => s
  | v => pyRepr v

/-- Python's s.replace(c, r) for a single-character pattern `c`:
every occurrence of `c` is replaced by `r` (occurrences of a
one-character pattern never overlap, so this per-character substitution
is exactly `str.replace`). -/
def pyReplaceCharList (c : Char) (r : List Char) : List Char → List Char
  | [] => []
  | a :: as => (if a = c then r else [a]) ++ pyReplaceCharList c r as

/-- String-level wrapper for `pyReplaceCharList`. -/
def pyReplaceChar (c : Char) (r : List Char) (s : String) : String :=
  ⟨pyReplaceCharList c r s.data⟩

/-- Python's `",".join(...)` (model of `str.join` for the comma separator). -/
def joinComma : List String → String
  | [] => ""
  | [x] => x
  | x :: xs => x ++ "," ++ joinComma xs

/-- The escaping applied to one array element in `format_pg_array_correctly`:
`item_str.replace('\\', '\\\\').replace('"', '\\"')` — backslashes first,
then double quotes. -/
def escapeItem (s : String) : String :=
  pyReplaceChar '"' ['\\', '"'] (pyReplaceChar '\\' ['\\', '\\'] s)

/-- Python iteration `for item in py_list` on a JSON-decoded value:
lists yield their elements, strings their characters, dicts their keys;
other values raise `TypeError`. -/
def pyIter : JVal → Except String (List JVal)
  | .arr xs => .ok xs
  | .str s => .ok (s.data.map (fun c => .str (String.singleton c)))
  | .obj kvs => .ok (kvs.map (fun kv => .str kv.1))
  | _ => .error "TypeError: object is not iterable"

/-- `format_pg_array_correctly` from `convert.py`: falsy input gives the
literal `\x7b\x7d`; otherwise each item is converted with `str`, backslashes
are escaped, then double quotes, each item is wrapped in double quotes,
and the items are comma-joined inside braces. Iterating a truthy
non-iterable raises, which the embedding returns as `Except.error`. -/
def format_pg_array_correctly (py_list : JVal) : Except String String :=
  if !pyTruthy py_list then
    .ok "\x7b\x7d"
  else do
    let items ← pyIter py_list
    let formatted := items.map (fun item =>
      "\"" ++ escapeItem (pyStr item) ++ "\"")
    return "\x7b" ++ joinComma formatted ++ "\x7d"

/-- First-match association lookup, the model of key lookup in a Python
dict built by `json.load` (later duplicate keys in a JSON text overwrite
earlier ones at parse time, so decoded objects have distinct keys). -/
def lookupKey : List (String × JVal) → String → Option JVal
  | [], _ => none
  | (k, v) :: kvs, key => if k = key then some v else lookupKey kvs key

/-- Python `q.get(key, dflt)`: defined on dicts, returns `dflt` when the
key is absent; on any non-dict value the attribute lookup `.get` raises
`AttributeError` (in particular on `None`). `q.get(key)` is
`pyGet q key .null`. -/
def pyGet (q : JVal) (key : String) (dflt : JVal) : Except String JVal :=
  match q with
  | .obj kvs => .ok ((lookupKey kvs key).getD dflt)
  | _ => .error "AttributeError: object has no attribute get"

/-- Lower-case hex digit for `\uXXXX` escapes. -/
def hexDigit (n : Nat) : Char :=
  if n < 10 then Char.ofNat (48 + n) else Char.ofNat (87 + n)

/-- Four lower-case hex digits of a value below `0x10000`. -/
def hex4 (n : Nat) : List Char :=
  [hexDigit (n / 4096 % 16), hexDigit (n / 256 % 16),
   hexDigit (n / 16 % 16), hexDigit (n % 16)]

/-- One character's expansion inside a JSON string produced by Python's
`json.dumps` with its defaults (`ensure_ascii=True`): `"` and `\` and the
named control characters get two-character escapes, every other character
outside printable ASCII becomes `\uXXXX` (a surrogate pair above
`0xFFFF`), and printable ASCII passes through. -/
def jsonEscChar (c : Char) : List Char :=
  if c = '"' then ['\\', '"']
  else if c = '\\' then ['\\', '\\']
  else if c = '\n' then ['\\', 'n']
  else if c = '\t' then ['\\', 't']
  else if c = '\r' then ['\\', 'r']
  else if c = Char.ofNat 8 then ['\\', 'b']
  else if c = Char.ofNat 12 then ['\\', 'f']
  else if c.toNat < 0x20 || c.toNat > 0x7e then
    if c.toNat < 0x10000 then '\\' :: 'u' :: hex4 c.toNat
    else
      '\\' :: 'u' :: hex4 (0xd800 + (c.toNat - 0x10000) / 0x400) ++
        '\\' :: 'u' :: hex4 (0xdc00 + (c.toNat - 0x10000) % 0x400)
  else [c]

/-- A JSON string literal as `json.dumps` writes it. -/
def jsonQuote (s : String) : String :=
  ⟨'"' :: (s.data.map jsonEscChar).flatten ++ ['"']⟩

mutual
/-- Python `json.dumps` with default arguments (separators `", "` and
`": "`, `ensure_ascii=True`), restricted to JSON-decoded values. -/
def jsonDumps : JVal → String
  | .null => "null"
  | .bool true => "true"
  | .bool false => "false"
  | .num n => toString n
  | .str s => jsonQuote s
  | .arr xs => "[" ++ String.intercalate ", " (jsonDumpsList xs) ++ "]"
  | .obj kvs => "\x7b" ++ String.intercalate ", " (jsonDumpsObj kvs) ++ "\x7d"

def jsonDumpsList : List JVal → List String
  | [] => []
  | x :: xs => jsonDumps x :: jsonDumpsList xs

def jsonDumpsObj : List (String × JVal) → List String
  | [] => []
  | (k, v) :: kvs => (jsonQuote k ++ ": " ++ jsonDumps v) :: jsonDumpsObj kvs
end

/-- One output record: the argument of `writer.writerow` in `convert.py`.
The three array fields and the explanation field hold the already
serialized strings; the passthrough fields hold the looked-up values. -/
structure Row where
  v1_id : JVal
  subject : JVal
  topic : JVal
  subTopic : JVal
  examName : JVal
  examYear : JVal
  examDateShift : JVal
  difficulty : JVal
  questionType : JVal
  question : JVal
  question_hi : JVal
  options : String
  options_hi : String
  correct : JVal
  tags : String
  explanation : String
  deriving Repr, BEq

/-- The body of the per-record `try` block (lines 52–75 of `convert.py`),
in the source's evaluation order: the three array fields, the explanation,
then the fields of the row dict top to bottom; `q.get('classification', \x7b\x7d)`
and its siblings are re-evaluated per field exactly as in the source.
Any raise surfaces as `Except.error`. -/
def projectRow (q : JVal) : Except String Row := do
  let options_pg ← format_pg_array_correctly (← pyGet q "options" (.arr []))
  let options_hi_pg ← format_pg_array_correctly (← pyGet q "options_hi" (.arr []))
  let tags_pg ← format_pg_array_correctly (← pyGet q "tags" (.arr []))
  let explanation_jsonb := jsonDumps (← pyGet q "explanation" (.obj []))
  let v1_id ← pyGet q "id" .null
  let subject ← pyGet (← pyGet q "classification" (.obj [])) "subject" .null
  let topic ← pyGet (← pyGet q "classification" (.obj [])) "topic" .null
  let subTopic ← pyGet (← pyGet q "classification" (.obj [])) "subTopic" .null
  let examName ← pyGet (← pyGet q "sourceInfo" (.obj [])) "examName" .null
  let examYear ← pyGet (← pyGet q "sourceInfo" (.obj [])) "examYear" .null
  let examDateShift ← pyGet (← pyGet q "sourceInfo" (.obj [])) "examDateShift" .null
  let difficulty ← pyGet (← pyGet q "properties" (.obj [])) "difficulty" .null
  let questionType ← pyGet (← pyGet q "properties" (.obj [])) "questionType" .null
  let question ← pyGet q "question" .null
  let question_hi ← pyGet q "question_hi" .null
  let correct ← pyGet q "correct" .null
  return ⟨v1_id, subject, topic, subTopic, examName, examYear, examDateShift,
    difficulty, questionType, question, question_hi, options_pg, options_hi_pg,
    correct, tags_pg, explanation_jsonb⟩

/-- Result of the `for q in questions_data` loop: the rows written, the
per-record error reports (identifier from `q.get('id')`, error text), and
`aborted = some e` when an error escaped the per-record handler (the
handler itself evaluates `q.get('id')`, which raises when `q` is not a
dict, and that second raise propagates to the outer handler). -/
structure LoopOut where
  rows : List Row
  reports : List (JVal × String)
  aborted : Option String
  deriving Repr

/-- The per-record loop of `convert.py` (lines 49–78). -/
def processAll : List JVal → LoopOut
  | [] => ⟨[], [], none⟩
  | q :: qs =>
    match projectRow q with
    | .ok r =>
      let rest := processAll qs
      ⟨r :: rest.rows, rest.reports, rest.aborted⟩
    | .error e =>
      match pyGet q "id" .null with
      | .ok idv =>
        let rest := processAll qs
        ⟨rest.rows, (idv, e) :: rest.reports, rest.aborted⟩
      | .error e2 => ⟨[], [], some e2⟩

/-- The fixed CSV header of `convert.py` (lines 39–43). -/
def header : List String :=
  ["v1_id", "subject", "topic", "subTopic", "examName", "examYear",
   "examDateShift", "difficulty", "questionType", "question", "question_hi",
   "options", "options_hi", "correct", "tags", "explanation"]

/-- How `csv.DictWriter` renders one cell: `None` becomes the empty
field, any other value is rendered with `str` (CSV-level quoting is the
writer's concern and is not part of the cell value). -/
def csvCell : JVal → String
  | .null => ""
  | v => pyStr v

/-- One written CSV data row, cells in header order. -/
def rowToCsv (r : Row) : List String :=
  [csvCell r.v1_id, csvCell r.subject, csvCell r.topic, csvCell r.subTopic,
   csvCell r.examName, csvCell r.examYear, csvCell r.examDateShift,
   csvCell r.difficulty, csvCell r.questionType, csvCell r.question,
   csvCell r.question_hi, r.options, r.options_hi, csvCell r.correct,
   r.tags, r.explanation]

/-- Observable outcome of one run: the rows of the CSV file (header
included), the per-record console error reports, the row count of the
completion message (`none` when no completion message is printed), and a
fatal error message when one of the two outer handlers fired. -/
structure RunOut where
  csv : List (List String)
  reports : List (JVal × String)
  finalCount : Option Nat
  fatalError : Option String
  deriving Repr

/-- The driver given the parsed document (lines 37–80): the header is
written before the loop starts, so it is present even when iterating the
document itself raises. -/
def runConvert (doc : JVal) : RunOut :=
  match pyIter doc with
  | .error e => ⟨[header], [], none, some e⟩
  | .ok qs =>
    let out := processAll qs
    ⟨header :: out.rows.map rowToCsv, out.reports,
      if out.aborted.isSome then none else some out.rows.length,
      out.aborted⟩

/-- The whole program (lines 33–85). The input file's content is the
environment: `none` models a missing input file, in which case
`open` raises `FileNotFoundError` before the output file is opened, so
nothing is written and no completion message is printed. -/
def program : Option JVal → RunOut
  | none => ⟨[], [], none, some "Error: questions.json not found."⟩
  | some doc => runConvert doc

/-- States of the array-literal scanner `pgRun`. -/
inductive PgState where
  | start
  | expectQuote
  | inQuote
  | escaped
  | afterItem
  deriving Repr, DecidableEq

/-- Modelled from the spec: the target database's array-literal parser, for
the literal shapes the encoder produces — a brace-wrapped, comma-separated
list of double-quoted elements in which a backslash escapes the following
character (un-escaping `\\` to `\` and `\"` to `"`). `pgRun` scans the
characters after the opening brace; `cur` is the element being read and
`elems` the completed elements. -/
def pgRun : PgState → List Char → List Char → List String → Option (List String)
  | _, [], _, _ => none
  | st, c :: rest, cur, elems =>
    match st with
    | .start =>
      if c = '\x7d' then if rest.isEmpty then some elems else none
      else if c = '"' then pgRun .inQuote rest [] elems
      else none
    | .expectQuote =>
      if c = '"' then pgRun .inQuote rest [] elems else none
    | .inQuote =>
      if c = '\\' then pgRun .escaped rest cur elems
      else if c = '"' then pgRun .afterItem rest cur elems
      else pgRun .inQuote rest (cur ++ [c]) elems
    | .escaped => pgRun .inQuote rest (cur ++ [c]) elems
    | .afterItem =>
      if c = ',' then pgRun .expectQuote rest [] (elems ++ [⟨cur⟩])
      else if c = '\x7d' then if rest.isEmpty then some (elems ++ [⟨cur⟩]) else none
      else none

/-- Modelled from the spec: parse a whole array literal (it must start
with `\x7b` and end with `\x7d`). -/
def pgArrayParse (s : String) : Option (List String) :=
  match s.data with
  | '\x7b' :: rest => pgRun .start rest [] []
  | _ => none

/-- Modelled from the spec: the external JSON reader that consumes the
program's output (`parses back`), on the subset `json.dumps` emits for
JSON-decoded input without string escapes — objects, arrays, quoted
strings, integers and the three literals, with blanks around separators.
Fuel `n` bounds nesting; each call returns the value and the remaining
characters. -/
def jsonParseVal : Nat → List Char → Option (JVal × List Char)
  | 0, _ => none
  | n + 1, cs =>
    match jsonSkipSpaces cs with
    | [] => none
    | c :: rest =>
    if c = 'n' then
      match rest with
      | 'u' :: 'l' :: 'l' :: rest' => some (.null, rest')
      | _ => none
    else if c = 't' then
      match rest with
      | 'r' :: 'u' :: 'e' :: rest' => some (.bool true, rest')
      | _ => none
    else if c = 'f' then
      match rest with
      | 'a' :: 'l' :: 's' :: 'e' :: rest' => some (.bool false, rest')
      | _ => none
    else if c = '"' then
      match jsonParseStr rest with
      | some (s, rest') => some (.str s, rest')
      | none => none
    else if c = '[' then
      match rest with
      | ']' :: rest' => some (.arr [], rest')
      | _ =>
        match jsonParseArrItems n rest with
        | some (xs, rest') => some (.arr xs, rest')
        | none => none
    else if c = '\x7b' then
      match rest with
      | '\x7d' :: rest' => some (.obj [], rest')
      | _ =>
        match jsonParseObjItems n rest with
        | some (kvs, rest') => some (.obj kvs, rest')
        | none => none
    else if c = '-' || c.isDigit then
      jsonParseNum (c :: rest)
    else none
where
  /-- A quoted string without escape sequences (all the concrete texts the
  claims parse). -/
  jsonParseStr : List Char → Option (String × List Char)
    | [] => none
    | '"' :: rest => some ("", rest)
    | '\\' :: _ => none
    | c :: rest =>
      match jsonParseStr rest with
      | some (s, rest') => some (⟨c :: s.data⟩, rest')
      | none => none
  /-- An optionally signed run of digits. -/
  jsonParseNum (cs : List Char) : Option (JVal × List Char) :=
    match cs with
    | '-' :: rest =>
      match jsonParseDigits rest 0 with
      | some (v, rest') => some (.num (-(v : Int)), rest')
      | none => none
    | _ =>
      match jsonParseDigits cs 0 with
      | some (v, rest') => some (.num (v : Int), rest')
      | none => none
  jsonParseDigits : List Char → Nat → Option (Nat × List Char)
    | [], acc => some (acc, [])
    | c :: rest, acc =>
      if c.isDigit then
        match jsonParseDigits rest (acc * 10 + (c.toNat - 48)) with
        | some r => some r
        | none => some (acc * 10 + (c.toNat - 48), rest)
      else some (acc, c :: rest)
  jsonParseArrItems : Nat → List Char → Option (List JVal × List Char)
    | 0, _ => none
    | n + 1, cs =>
      match jsonParseVal n cs with
      | some (v, rest) =>
        match jsonSkipSpaces rest with
        | ',' :: rest' =>
          match jsonParseArrItems n rest' with
          | some (vs, rest'') => some (v :: vs, rest'')
          | none => none
        | ']' :: rest' => some ([v], rest')
        | _ => none
      | none => none
  jsonParseObjItems : Nat → List Char → Option (List (String × JVal) × List Char)
    | 0, _ => none
    | n + 1, cs =>
      match jsonSkipSpaces cs with
      | '"' :: rest =>
        match jsonParseStr rest with
        | some (k, rest') =>
          match jsonSkipSpaces rest' with
          | ':' :: rest'' =>
            match jsonParseVal n rest'' with
            | some (v, rest3) =>
              match jsonSkipSpaces rest3 with
              | ',' :: rest4 =>
                match jsonParseObjItems n rest4 with
                | some (kvs, rest5) => some ((k, v) :: kvs, rest5)
                | none => none
              | '\x7d' :: rest4 => some ([(k, v)], rest4)
              | _ => none
            | none => none
          | _ => none
        | none => none
      | _ => none
  jsonSkipSpaces : List Char → List Char
    | ' ' :: rest => jsonSkipSpaces rest
    | cs => cs

/-- Modelled from the spec: read one JSON document (the whole text must
be consumed). -/
def jsonLoads (s : String) : Option JVal :=
  match jsonParseVal (s.length + 1) s.data with
  | some (v, rest) => if (jsonParseVal.jsonSkipSpaces rest).isEmpty then some v else none
  | none => none

/-- The per-element escaping of `format_pg_array_correctly` at character
level (first every backslash is doubled, then every double quote gains a
backslash). -/
def escapedChars (cs : List Char) : List Char :=
  pyReplaceCharList '"' ['\\', '"'] (pyReplaceCharList '\\' ['\\', '\\'] cs)

/-- One encoded element as `format_pg_array_correctly` builds it. -/
def quoteItem (s : String) : String := "\"" ++ escapeItem s ++ "\""

/-- The rows the loop writes when every projection succeeds. -/
def okRows (l : List JVal) : List Row :=
  l.filterMap (fun q => (projectRow q).toOption)

/-! ## Helper lemmas -/

lemma pyReplaceCharList_append (c : Char) (r : List Char) (l1 l2 : List Char) :
    pyReplaceCharList c r (l1 ++ l2) =
      pyReplaceCharList c r l1 ++ pyReplaceCharList c r l2 := by
  induction l1 with
  | nil => rfl
  | cons a as ih => simp [pyReplaceCharList, ih]

lemma escapedChars_cons (a : Char) (as : List Char) :
    escapedChars (a :: as) =
      (if a = '\\' then ['\\', '\\']
       else if a = '"' then ['\\', '"'] else [a]) ++ escapedChars as := by
  by_cases h1 : a = '\\'
  · subst h1
    simp [escapedChars, pyReplaceCharList, pyReplaceCharList_append]
  · by_cases h2 : a = '"'
    · subst h2
      simp [escapedChars, pyReplaceCharList, pyReplaceCharList_append]
    · simp [escapedChars, pyReplaceCharList, pyReplaceCharList_append, h1, h2]

lemma escapeItem_data (s : String) : (escapeItem s).data = escapedChars s.data := rfl

lemma pgRun_inQuote_escaped (cs rest cur : List Char) (elems : List String) :
    pgRun .inQuote (escapedChars cs ++ '"' :: rest) cur elems =
      pgRun .afterItem rest (cur ++ cs) elems := by
  induction cs generalizing cur with
  | nil => simp [escapedChars, pyReplaceCharList, pgRun]
  | cons a as ih =>
    rw [escapedChars_cons]
    by_cases h1 : a = '\\'
    · subst h1
      simp only [if_pos rfl, List.cons_append, List.append_assoc]
      simp [pgRun, ih, List.append_assoc]
    · by_cases h2 : a = '"'
      · subst h2
        simp only [if_neg h1, if_pos rfl, List.cons_append, List.append_assoc]
        simp [pgRun, ih, List.append_assoc]
      · simp only [if_neg h1, if_neg h2, List.cons_append, List.append_assoc,
          List.singleton_append]
        rw [pgRun]
        simp [h1, h2, ih, List.append_assoc]

lemma quoteItem_data (s : String) :
    (quoteItem s).data = '"' :: (escapedChars s.data ++ ['"']) := by
  simp [quoteItem, String.data_append, escapeItem_data]

lemma pgRun_start_quote (l cur : List Char) (elems : List String) :
    pgRun .start ('"' :: l) cur elems = pgRun .expectQuote ('"' :: l) cur elems := by
  simp [pgRun]

lemma pgRun_items (s : String) (S : List String) (cur : List Char) (elems : List String) :
    pgRun .expectQuote ((joinComma ((s :: S).map quoteItem)).data ++ ['\x7d']) cur elems =
      some (elems ++ s :: S) := by
  induction S generalizing s cur elems with
  | nil =>
    show pgRun .expectQuote ((quoteItem s).data ++ ['\x7d']) cur elems = _
    rw [quoteItem_data]
    simp only [List.cons_append, List.append_assoc, List.singleton_append]
    rw [pgRun]
    simp only [if_pos rfl, if_true, List.nil_append]
    rw [pgRun_inQuote_escaped]
    simp [pgRun]
  | cons t S' ih =>
    show pgRun .expectQuote
      ((quoteItem s ++ "," ++ joinComma ((t :: S').map quoteItem)).data ++ ['\x7d']) cur elems = _
    rw [String.data_append, String.data_append, quoteItem_data]
    simp only [List.cons_append, List.append_assoc, List.singleton_append]
    rw [pgRun]
    simp only [if_pos rfl, if_true, List.nil_append]
    rw [pgRun_inQuote_escaped]
    rw [pgRun]
    simp only [if_pos rfl, if_true, List.nil_append]
    rw [ih]
    simp

lemma except_bind_ok {a b : Type} (x : a) (f : a → Except String b) :
    (Except.ok x >>= f) = f x := rfl

lemma except_bind_err {a b : Type} (e : String) (f : a → Except String b) :
    ((Except.error e : Except String a) >>= f) = Except.error e := rfl

lemma format_arr_ok (xs : List JVal) :
    ∃ s, format_pg_array_correctly (JVal.arr xs) = Except.ok s := by
  cases xs with
  | nil => exact ⟨_, rfl⟩
  | cons a as => exact ⟨_, rfl⟩

lemma format_lookup_ok (kvs : List (String × JVal)) (key : String)
    (hk : ∀ v, lookupKey kvs key = some v → ∃ xs, v = JVal.arr xs) :
    ∃ s, format_pg_array_correctly ((lookupKey kvs key).getD (JVal.arr [])) =
      Except.ok s := by
  cases hlk : lookupKey kvs key with
  | none => exact ⟨_, rfl⟩
  | some v =>
    obtain ⟨xs, rfl⟩ := hk v hlk
    simpa using format_arr_ok xs

lemma no_key_arr (kvs : List (String × JVal)) (key : String)
    (h : lookupKey kvs key = none) :
    ∀ v, lookupKey kvs key = some v → ∃ xs, v = JVal.arr xs := by
  intro v hv
  rw [h] at hv
  cases hv

lemma no_key_obj (kvs : List (String × JVal)) (key : String)
    (h : lookupKey kvs key = none) :
    ∀ v, lookupKey kvs key = some v → ∃ m, v = JVal.obj m := by
  intro v hv
  rw [h] at hv
  cases hv

lemma key_obj (kvs : List (String × JVal)) (key : String)
    (m : List (String × JVal)) (h : lookupKey kvs key = some (JVal.obj m)) :
    ∀ v, lookupKey kvs key = some v → ∃ m2, v = JVal.obj m2 := by
  intro v hv
  rw [h] at hv
  exact ⟨m, (Option.some.inj hv).symm⟩

lemma getD_obj (kvs : List (String × JVal)) (key : String)
    (h : ∀ v, lookupKey kvs key = some v → ∃ m, v = JVal.obj m) :
    ∃ m, (lookupKey kvs key).getD (JVal.obj []) = JVal.obj m ∧
      (lookupKey kvs key = none → m = ([] : List (String × JVal))) := by
  cases hlk : lookupKey kvs key with
  | none => exact ⟨[], rfl, fun _ => rfl⟩
  | some v =>
    obtain ⟨m, rfl⟩ := h v hlk
    exact ⟨m, rfl, fun hc => Option.noConfusion hc⟩

lemma pyGet_obj (kvs : List (String × JVal)) (key : String) (d : JVal) :
    pyGet (JVal.obj kvs) key d = Except.ok ((lookupKey kvs key).getD d) := rfl

lemma pyGet_null (key : String) (d : JVal) :
    pyGet JVal.null key d =
      Except.error "AttributeError: object has no attribute get" := rfl

lemma obj_or_pyGet_err (v : JVal) (key : String) (d : JVal) :
    (∃ m, v = JVal.obj m) ∨
      pyGet v key d =
        Except.error "AttributeError: object has no attribute get" := by
  cases v
  case obj kvs => exact Or.inl ⟨kvs, rfl⟩
  all_goals exact Or.inr rfl

lemma processAll_ok_all (l : List JVal)
    (h : ∀ q ∈ l, ∃ r, projectRow q = Except.ok r) :
    processAll l = ⟨okRows l, [], none⟩ := by
  induction l with
  | nil => rfl
  | cons q qs ih =>
    obtain ⟨r, hr⟩ := h q (List.mem_cons_self q qs)
    have hrest := ih (fun p hp => h p (List.mem_cons_of_mem q hp))
    simp [processAll, hr, hrest, okRows, List.filterMap_cons, Except.toOption]

lemma processAll_append (A rest : List JVal)
    (hA : ∀ q ∈ A, ∃ r, projectRow q = Except.ok r) :
    processAll (A ++ rest) =
      ⟨okRows A ++ (processAll rest).rows, (processAll rest).reports,
        (processAll rest).aborted⟩ := by
  induction A with
  | nil => simp [okRows]
  | cons q qs ih =>
    obtain ⟨r, hr⟩ := hA q (List.mem_cons_self q qs)
    have hrest := ih (fun p hp => hA p (List.mem_cons_of_mem q hp))
    simp [processAll, hr, hrest, okRows, List.filterMap_cons, Except.toOption]

lemma okRows_length (l : List JVal)
    (h : ∀ q ∈ l, ∃ r, projectRow q = Except.ok r) :
    (okRows l).length = l.length := by
  induction l with
  | nil => rfl
  | cons q qs ih =>
    obtain ⟨r, hr⟩ := h q (List.mem_cons_self q qs)
    have hrest := ih (fun p hp => h p (List.mem_cons_of_mem q hp))
    simp [okRows, List.filterMap_cons, hr, Except.toOption] at hrest ⊢
    exact hrest

/-! ## Claims -/

/-- C1: in an input array split as `A ++ [record k] ++ B` where projecting
record `k` (a mapping, per the data model of §3) raises with error text
`e` and every record of `A` and `B` projects successfully, the loop
reports record k's identifier (`q.get('id')`) together with `e`, writes
exactly the `N-1` successful rows in input order with record `k`
contributing no row at all (so no partially-filled row), and does not
abort. -/
theorem c1_failing_record_skipped (A B : List JVal) (kvs : List (String × JVal))
    (e : String)
    (hfail : projectRow (JVal.obj kvs) = Except.error e)
    (hA : ∀ q ∈ A, ∃ r, projectRow q = Except.ok r)
    (hB : ∀ q ∈ B, ∃ r, projectRow q = Except.ok r) :
    processAll (A ++ JVal.obj kvs :: B) =
      ⟨okRows A ++ okRows B, [((lookupKey kvs "id").getD JVal.null, e)], none⟩ ∧
    (okRows A ++ okRows B).length = A.length + B.length := by
  have hmid : processAll (JVal.obj kvs :: B) =
      ⟨okRows B, [((lookupKey kvs "id").getD JVal.null, e)], none⟩ := by
    simp [processAll, hfail, pyGet, processAll_ok_all B hB]
  constructor
  · rw [processAll_append _ _ hA, hmid]
  · simp [List.length_append, okRows_length A hA, okRows_length B hB]

/-- C1 witness: a three-record run whose middle record has a null
`classification`; the other two records produce the only two rows. -/
theorem c1_witness :
    processAll ([JVal.obj [("id", JVal.str "q1")]] ++
        JVal.obj [("id", JVal.str "q2"), ("classification", JVal.null)] ::
        [JVal.obj [("id", JVal.str "q3")]]) =
      ⟨okRows [JVal.obj [("id", JVal.str "q1")]] ++
        okRows [JVal.obj [("id", JVal.str "q3")]],
        [((lookupKey [("id", JVal.str "q2"), ("classification", JVal.null)]
            "id").getD JVal.null,
          "AttributeError: object has no attribute get")], none⟩ ∧
    (okRows [JVal.obj [("id", JVal.str "q1")]] ++
      okRows [JVal.obj [("id", JVal.str "q3")]]).length =
        [JVal.obj [("id", JVal.str "q1")]].length +
          [JVal.obj [("id", JVal.str "q3")]].length :=
  c1_failing_record_skipped
    [JVal.obj [("id", JVal.str "q1")]] [JVal.obj [("id", JVal.str "q3")]]
    [("id", JVal.str "q2"), ("classification", JVal.null)]
    "AttributeError: object has no attribute get" rfl
    (fun q hq => by rw [List.mem_singleton] at hq; subst hq; exact ⟨_, rfl⟩)
    (fun q hq => by rw [List.mem_singleton] at hq; subst hq; exact ⟨_, rfl⟩)

/-- C2: for every sequence `S` of strings, encoding `S` with
`format_pg_array_correctly` and parsing the result with the target
database's array-literal parser (un-escaping) gives back exactly `S`. -/
theorem c2_array_literal_roundtrip (S : List String) :
    (format_pg_array_correctly (JVal.arr (S.map JVal.str))).map pgArrayParse =
      Except.ok (some S) := by
  cases S with
  | nil => rfl
  | cons s S' =>
    have hmap : ((s :: S').map JVal.str).map
        (fun item => "\"" ++ escapeItem (pyStr item) ++ "\"") =
          (s :: S').map quoteItem := by
      simp [List.map_map, quoteItem, pyStr, Function.comp]
    have hfmt : format_pg_array_correctly (JVal.arr ((s :: S').map JVal.str)) =
        .ok ("\x7b" ++ joinComma ((s :: S').map quoteItem) ++ "\x7d") := by
      rw [← hmap]; rfl
    rw [hfmt]
    show Except.ok (pgArrayParse
      ("\x7b" ++ joinComma ((s :: S').map quoteItem) ++ "\x7d")) = _
    have hdata : ("\x7b" ++ joinComma ((s :: S').map quoteItem) ++ "\x7d").data =
        '\x7b' :: ((joinComma ((s :: S').map quoteItem)).data ++ ['\x7d']) := by
      simp [String.data_append]
    rw [pgArrayParse, hdata]
    show Except.ok (pgRun .start
      ((joinComma ((s :: S').map quoteItem)).data ++ ['\x7d']) [] []) = _
    have hhead : ∃ tail, (joinComma ((s :: S').map quoteItem)).data = '"' :: tail := by
      cases S' with
      | nil => exact ⟨_, quoteItem_data s⟩
      | cons t S'' =>
        refine ⟨escapedChars s.data ++ ['"'] ++
          ',' :: (joinComma ((t :: S'').map quoteItem)).data, ?_⟩
        show (quoteItem s ++ "," ++ joinComma ((t :: S'').map quoteItem)).data = _
        rw [String.data_append, String.data_append, quoteItem_data]
        simp
    obtain ⟨tail, htail⟩ := hhead
    rw [htail, List.cons_append, pgRun_start_quote, ← List.cons_append, ← htail]
    rw [pgRun_items]
    simp

/-- C2 witness: the round trip at a concrete two-element list with a
quote and a backslash. -/
theorem c2_witness :
    (format_pg_array_correctly
        (JVal.arr (["a\"b", "c\\d"].map JVal.str))).map pgArrayParse =
      Except.ok (some ["a\"b", "c\\d"]) :=
  c2_array_literal_roundtrip ["a\"b", "c\\d"]

/-- C3 counterexample: for a record whose `explanation` key is present
with value null, the encoder produces the JSON text `null`, not the
claimed empty-object text. -/
theorem c3_counterexample :
    (projectRow (JVal.obj [("explanation", JVal.null)])).map Row.explanation =
      Except.ok "null" ∧ ("null" : String) ≠ "\x7b\x7d" :=
  ⟨rfl, by decide⟩

/-- C3 (amended): a missing `explanation` is encoded as the empty-object
text; a present-but-null `explanation` is encoded as the JSON text
`null`; and the mapping `x ↦ 1` is encoded as a JSON text that parses
back to itself. -/
theorem c3_explanation_encoding :
    (projectRow (JVal.obj [])).map Row.explanation = Except.ok "\x7b\x7d" ∧
    jsonDumps (JVal.obj []) = "\x7b\x7d" ∧
    (projectRow (JVal.obj [("explanation", JVal.null)])).map Row.explanation =
      Except.ok "null" ∧
    jsonLoads (jsonDumps (JVal.obj [("x", JVal.num 1)])) =
      some (JVal.obj [("x", JVal.num 1)]) :=
  ⟨rfl, rfl, rfl, rfl⟩

/-- C4: backslashes are escaped before double quotes, so the two-element
list holding `a"b` and `c\d` encodes to exactly the literal
`\x7b"a\"b","c\\d"\x7d`. -/
theorem c4_backslash_escaped_before_quote :
    format_pg_array_correctly (JVal.arr [JVal.str "a\"b", JVal.str "c\\d"]) =
      Except.ok "\x7b\"a\\\"b\",\"c\\\\d\"\x7d" := rfl

/-- C5: the empty sequence and null both encode to the two-character
literal of an empty array. -/
theorem c5_empty_and_null_encode_to_empty_braces :
    format_pg_array_correctly (JVal.arr []) = Except.ok "\x7b\x7d" ∧
    format_pg_array_correctly JVal.null = Except.ok "\x7b\x7d" :=
  ⟨rfl, rfl⟩

/-- C6: for every record of the data model (its three array fields and
its three nested mappings each well-typed or absent), the row builder
does not raise, and whenever any one of `classification`, `sourceInfo`
or `properties` is absent, every sub-field of that missing mapping in
the produced row is null. -/
theorem c6_missing_nested_mappings_give_nulls (kvs : List (String × JVal))
    (hcls : ∀ v, lookupKey kvs "classification" = some v → ∃ m, v = JVal.obj m)
    (hsrc : ∀ v, lookupKey kvs "sourceInfo" = some v → ∃ m, v = JVal.obj m)
    (hprop : ∀ v, lookupKey kvs "properties" = some v → ∃ m, v = JVal.obj m)
    (ho : ∀ v, lookupKey kvs "options" = some v → ∃ xs, v = JVal.arr xs)
    (hoh : ∀ v, lookupKey kvs "options_hi" = some v → ∃ xs, v = JVal.arr xs)
    (ht : ∀ v, lookupKey kvs "tags" = some v → ∃ xs, v = JVal.arr xs) :
    ∃ r, projectRow (JVal.obj kvs) = Except.ok r ∧
      (lookupKey kvs "classification" = none →
        r.subject = JVal.null ∧ r.topic = JVal.null ∧ r.subTopic = JVal.null) ∧
      (lookupKey kvs "sourceInfo" = none →
        r.examName = JVal.null ∧ r.examYear = JVal.null ∧
        r.examDateShift = JVal.null) ∧
      (lookupKey kvs "properties" = none →
        r.difficulty = JVal.null ∧ r.questionType = JVal.null) := by
  obtain ⟨s1, h1⟩ := format_lookup_ok kvs "options" ho
  obtain ⟨s2, h2⟩ := format_lookup_ok kvs "options_hi" hoh
  obtain ⟨s3, h3⟩ := format_lookup_ok kvs "tags" ht
  obtain ⟨m1, hm1, hm1n⟩ := getD_obj kvs "classification" hcls
  obtain ⟨m2, hm2, hm2n⟩ := getD_obj kvs "sourceInfo" hsrc
  obtain ⟨m3, hm3, hm3n⟩ := getD_obj kvs "properties" hprop
  refine ⟨⟨(lookupKey kvs "id").getD JVal.null,
    (lookupKey m1 "subject").getD JVal.null,
    (lookupKey m1 "topic").getD JVal.null,
    (lookupKey m1 "subTopic").getD JVal.null,
    (lookupKey m2 "examName").getD JVal.null,
    (lookupKey m2 "examYear").getD JVal.null,
    (lookupKey m2 "examDateShift").getD JVal.null,
    (lookupKey m3 "difficulty").getD JVal.null,
    (lookupKey m3 "questionType").getD JVal.null,
    (lookupKey kvs "question").getD JVal.null,
    (lookupKey kvs "question_hi").getD JVal.null, s1, s2,
    (lookupKey kvs "correct").getD JVal.null, s3,
    jsonDumps ((lookupKey kvs "explanation").getD (JVal.obj []))⟩,
    ?_, ?_, ?_, ?_⟩
  · simp only [projectRow, pyGet_obj, except_bind_ok, h1, h2, h3,
      hm1, hm2, hm3]
    rfl
  · intro habs
    rw [hm1n habs]
    exact ⟨rfl, rfl, rfl⟩
  · intro habs
    rw [hm2n habs]
    exact ⟨rfl, rfl, rfl⟩
  · intro habs
    rw [hm3n habs]
    exact ⟨rfl, rfl⟩

/-- C6 witness: a record with only `classification` and `properties`
absent while `sourceInfo` is a present, proper mapping. -/
theorem c6_witness :
    ∃ r, projectRow (JVal.obj [("id", JVal.str "q1"),
        ("sourceInfo", JVal.obj [("examName", JVal.str "SSC CGL")])]) =
      Except.ok r ∧
      (lookupKey [("id", JVal.str "q1"),
          ("sourceInfo", JVal.obj [("examName", JVal.str "SSC CGL")])]
          "classification" = none →
        r.subject = JVal.null ∧ r.topic = JVal.null ∧ r.subTopic = JVal.null) ∧
      (lookupKey [("id", JVal.str "q1"),
          ("sourceInfo", JVal.obj [("examName", JVal.str "SSC CGL")])]
          "sourceInfo" = none →
        r.examName = JVal.null ∧ r.examYear = JVal.null ∧
        r.examDateShift = JVal.null) ∧
      (lookupKey [("id", JVal.str "q1"),
          ("sourceInfo", JVal.obj [("examName", JVal.str "SSC CGL")])]
          "properties" = none →
        r.difficulty = JVal.null ∧ r.questionType = JVal.null) :=
  c6_missing_nested_mappings_give_nulls
    [("id", JVal.str "q1"),
      ("sourceInfo", JVal.obj [("examName", JVal.str "SSC CGL")])]
    (no_key_obj _ _ rfl) (key_obj _ _ [("examName", JVal.str "SSC CGL")] rfl)
    (no_key_obj _ _ rfl)
    (no_key_arr _ _ rfl) (no_key_arr _ _ rfl) (no_key_arr _ _ rfl)

/-- C7: on any input document that is an array, the written file starts
with the fixed 16-column header row, and everything after it is the data
rows of the loop. -/
theorem c7_header_always_first (qs : List JVal) :
    (runConvert (JVal.arr qs)).csv.head? =
      some ["v1_id", "subject", "topic", "subTopic", "examName", "examYear",
        "examDateShift", "difficulty", "questionType", "question",
        "question_hi", "options", "options_hi", "correct", "tags",
        "explanation"] ∧
    (runConvert (JVal.arr qs)).csv =
      header :: (processAll qs).rows.map rowToCsv :=
  ⟨rfl, rfl⟩

/-- C7 witness: the empty input array still gets the header row. -/
theorem c7_witness :
    (runConvert (JVal.arr [])).csv.head? =
      some ["v1_id", "subject", "topic", "subTopic", "examName", "examYear",
        "examDateShift", "difficulty", "questionType", "question",
        "question_hi", "options", "options_hi", "correct", "tags",
        "explanation"] ∧
    (runConvert (JVal.arr [])).csv =
      header :: (processAll []).rows.map rowToCsv :=
  c7_header_always_first []

/-- C8: when the input file cannot be opened, the run reports the
file-not-found error, writes nothing (not even a header), processes no
record, and prints no completion count. -/
theorem c8_missing_input_file_fatal :
    program none =
      ⟨[], [], none, some "Error: questions.json not found."⟩ := rfl

/-- C9: with the three array fields well-typed, any record in which
`classification`, `sourceInfo` or `properties` is present but bound to
null makes the row builder raise an `AttributeError` (the attribute
lookup `.get` on null) instead of producing null sub-fields, and every
such record is reported under its id and contributes no row. -/
theorem c9_null_nested_mapping_raises (kvs : List (String × JVal))
    (ho : ∀ v, lookupKey kvs "options" = some v → ∃ xs, v = JVal.arr xs)
    (hoh : ∀ v, lookupKey kvs "options_hi" = some v → ∃ xs, v = JVal.arr xs)
    (ht : ∀ v, lookupKey kvs "tags" = some v → ∃ xs, v = JVal.arr xs)
    (hnull : lookupKey kvs "classification" = some JVal.null ∨
      lookupKey kvs "sourceInfo" = some JVal.null ∨
      lookupKey kvs "properties" = some JVal.null) :
    projectRow (JVal.obj kvs) =
      Except.error "AttributeError: object has no attribute get" ∧
    processAll [JVal.obj kvs] =
      ⟨[], [((lookupKey kvs "id").getD JVal.null,
        "AttributeError: object has no attribute get")], none⟩ := by
  obtain ⟨s1, h1⟩ := format_lookup_ok kvs "options" ho
  obtain ⟨s2, h2⟩ := format_lookup_ok kvs "options_hi" hoh
  obtain ⟨s3, h3⟩ := format_lookup_ok kvs "tags" ht
  have herr : projectRow (JVal.obj kvs) =
      Except.error "AttributeError: object has no attribute get" := by
    rcases hnull with hc | hsi | hp
    · simp only [projectRow, pyGet_obj, except_bind_ok, except_bind_err,
        h1, h2, h3, hc, Option.getD_some, pyGet_null]
    · rcases obj_or_pyGet_err ((lookupKey kvs "classification").getD
          (JVal.obj [])) "subject" JVal.null with ⟨m1, hm1⟩ | he1
      · simp only [projectRow, pyGet_obj, except_bind_ok, except_bind_err,
          h1, h2, h3, hm1, hsi, Option.getD_some, pyGet_null]
      · simp only [projectRow, pyGet_obj, except_bind_ok, except_bind_err,
          h1, h2, h3, he1]
    · rcases obj_or_pyGet_err ((lookupKey kvs "classification").getD
          (JVal.obj [])) "subject" JVal.null with ⟨m1, hm1⟩ | he1
      · rcases obj_or_pyGet_err ((lookupKey kvs "sourceInfo").getD
            (JVal.obj [])) "examName" JVal.null with ⟨m2, hm2⟩ | he2
        · simp only [projectRow, pyGet_obj, except_bind_ok, except_bind_err,
            h1, h2, h3, hm1, hm2, hp, Option.getD_some, pyGet_null]
        · simp only [projectRow, pyGet_obj, except_bind_ok, except_bind_err,
            h1, h2, h3, hm1, he2]
      · simp only [projectRow, pyGet_obj, except_bind_ok, except_bind_err,
          h1, h2, h3, he1]
  refine ⟨herr, ?_⟩
  simp [processAll, herr, pyGet]

/-- C9 witness: three records, one per nested mapping bound to null; in
the second the earlier `classification` is a present, proper mapping and
in the third both earlier mappings are present; all three raise and are
reported and skipped. -/
theorem c9_witness :
    (projectRow (JVal.obj [("classification", JVal.null)]) =
        Except.error "AttributeError: object has no attribute get" ∧
      processAll [JVal.obj [("classification", JVal.null)]] =
        ⟨[], [((lookupKey [("classification", JVal.null)] "id").getD JVal.null,
          "AttributeError: object has no attribute get")], none⟩) ∧
    (projectRow (JVal.obj [("classification",
        JVal.obj [("subject", JVal.str "Hist")]), ("sourceInfo", JVal.null)]) =
        Except.error "AttributeError: object has no attribute get" ∧
      processAll [JVal.obj [("classification",
          JVal.obj [("subject", JVal.str "Hist")]), ("sourceInfo", JVal.null)]] =
        ⟨[], [((lookupKey [("classification",
            JVal.obj [("subject", JVal.str "Hist")]), ("sourceInfo", JVal.null)]
            "id").getD JVal.null,
          "AttributeError: object has no attribute get")], none⟩) ∧
    (projectRow (JVal.obj [("classification", JVal.obj []),
        ("sourceInfo", JVal.obj []), ("properties", JVal.null)]) =
        Except.error "AttributeError: object has no attribute get" ∧
      processAll [JVal.obj [("classification", JVal.obj []),
          ("sourceInfo", JVal.obj []), ("properties", JVal.null)]] =
        ⟨[], [((lookupKey [("classification", JVal.obj []),
            ("sourceInfo", JVal.obj []), ("properties", JVal.null)]
            "id").getD JVal.null,
          "AttributeError: object has no attribute get")], none⟩) :=
  ⟨c9_null_nested_mapping_raises [("classification", JVal.null)]
      (no_key_arr _ _ rfl) (no_key_arr _ _ rfl) (no_key_arr _ _ rfl)
      (Or.inl rfl),
   c9_null_nested_mapping_raises
      [("classification", JVal.obj [("subject", JVal.str "Hist")]),
        ("sourceInfo", JVal.null)]
      (no_key_arr _ _ rfl) (no_key_arr _ _ rfl) (no_key_arr _ _ rfl)
      (Or.inr (Or.inl rfl)),
   c9_null_nested_mapping_raises
      [("classification", JVal.obj []), ("sourceInfo", JVal.obj []),
        ("properties", JVal.null)]
      (no_key_arr _ _ rfl) (no_key_arr _ _ rfl) (no_key_arr _ _ rfl)
      (Or.inr (Or.inr rfl))⟩

/-- C10: every falsy argument — the number 0, the empty string, false,
and the empty mapping, not only the empty sequence and null — encodes to
the empty-array literal without raising. -/
theorem c10_falsy_inputs_encode_to_empty_braces :
    format_pg_array_correctly (JVal.num 0) = Except.ok "\x7b\x7d" ∧
    format_pg_array_correctly (JVal.str "") = Except.ok "\x7b\x7d" ∧
    format_pg_array_correctly (JVal.bool false) = Except.ok "\x7b\x7d" ∧
    format_pg_array_correctly (JVal.obj []) = Except.ok "\x7b\x7d" :=
  ⟨rfl, rfl, rfl, rfl⟩
